import Mathlib

/-!
Verification development for the wifi-automation-tool repository.

The Python sources are shallowly embedded: every subprocess call is
abstracted as an environment-supplied outcome, every pure computation
(string scanning, thresholds, dispatch tables, fallback chains) is
translated directly from the source files `src/package_manager.py`,
`src/driver_manager.py`, `src/error_handler.py` and `src/system_health.py`.
-/

/-! ## Python string primitives

These model the Python string operations the sources use:
`in` (substring containment), `str.lower()` (ASCII fragment, which covers
every marker and keyword appearing in the sources), `str.strip()`,
`str.split('\n')` and `sep.join(list)`. -/

/-- Model of Python `pat` being a leading block of `s` (helper for `in`). -/
def leadMatch : List Char → List Char → Bool
  | [], _ => true
  | _ :: _, [] => false
  | p :: ps, c :: cs => p == c && leadMatch ps cs

/-- Model of Python substring containment: `subMatch pat s` is `pat in s`. -/
def subMatch : List Char → List Char → Bool
  | pat, [] => leadMatch pat []
  | pat, c :: cs => leadMatch pat (c :: cs) || subMatch pat cs

/-- Python `pat in s` on strings. -/
def pyContains (s pat : String) : Bool :=
  subMatch pat.data s.data

/-- Python `str.lower()` on a single character (ASCII letters). -/
def pyLowerChar (c : Char) : Char :=
  if 65 ≤ c.toNat ∧ c.toNat ≤ 90 then Char.ofNat (c.toNat + 32) else c

/-- Python `str.lower()` (ASCII fragment). -/
def pyLower (s : String) : String :=
  ⟨s.data.map pyLowerChar⟩

/-- Drop leading whitespace characters (helper for `str.strip()`). -/
def dropLeadWS : List Char → List Char
  | [] => []
  | c :: cs => if c.isWhitespace then dropLeadWS cs else c :: cs

/-- Python `str.strip()`: drop whitespace from both ends. -/
def pyStrip (s : String) : String :=
  ⟨(dropLeadWS ((dropLeadWS s.data).reverse)).reverse⟩

/-- Helper for `str.split('\n')`: accumulate the current line (reversed). -/
def splitLinesAux : List Char → List Char → List String
  | acc, [] => [⟨acc.reverse⟩]
  | acc, c :: cs =>
    if c = '\n' then ⟨acc.reverse⟩ :: splitLinesAux [] cs
    else splitLinesAux (c :: acc) cs

/-- Python `str.split('\n')`; on the empty string it yields `[""]`. -/
def pySplitLines (s : String) : List String :=
  splitLinesAux [] s.data

/-- Python `sep.join(xs)`. -/
def pyJoin (sep : String) : List String → String
  | [] => ""
  | [x] => x
  | x :: y :: xs => x ++ sep ++ pyJoin sep (y :: xs)

/-! ## PackageManager.install_package_with_fallback

Translated from `src/package_manager.py`, lines 373-388: the method list
is `[_install_normal, _install_fix_broken, _install_allow_downgrades,
_install_force_yes]`; the loop returns `True` at the first method that
returns `True` and `False` after the loop.  Each `_install_*` method
swallows every exception and returns a boolean, so a method is modelled
as a function from the package name to its boolean outcome.  The second
component counts how many methods were invoked; since the loop walks the
list front to back, the invoked methods are exactly the first `count`
methods, each invoked exactly once. -/

/-- Fallback loop of `install_package_with_fallback`: result plus the
number of strategies invoked. -/
def runChainFns (package_name : String) : List (String → Bool) → Bool × Nat
  | [] => (false, 0)
  | m :: rest =>
    if m package_name then (true, 1)
    else
      let r := runChainFns package_name rest
      (r.1, r.2 + 1)

/-- `install_package_with_fallback` from `src/package_manager.py` with the
four installation strategies supplied by the environment. -/
def install_package_with_fallback
    (install_normal install_fix_broken install_allow_downgrades install_force_yes :
      String → Bool) (package_name : String) : Bool × Nat :=
  runChainFns package_name
    [install_normal, install_fix_broken, install_allow_downgrades, install_force_yes]

/-! ## DriverManager._try_online_installation success threshold

Translated from `src/driver_manager.py`, lines 94-104: the loop counts the
packages for which `install_package_with_fallback` returned `True` and the
attempt is judged by `success_count >= len(driver_packages) * 0.5`.  The
literal `0.5` is exactly representable, so the comparison is modelled over
`ℚ`. -/

/-- The judgment `success_count >= len(driver_packages) * 0.5` from
`_try_online_installation`. -/
def onlineJudge (success_count total : Nat) : Bool :=
  decide ((success_count : ℚ) ≥ (total : ℚ) * (1 / 2))

/-! ## PackageManager health check and repair

Translated from `src/package_manager.py`.  Every probe runs a subprocess
and catches its own failures, returning a boolean, so each probe outcome
is a parameter.  `check_system_health` (lines 14-57) stores the six probe
results and derives `overall_health` as the conjunction of the four
critical probes (lines 46-51). -/

structure HealthStatus where
  apt_working : Bool
  sources_valid : Bool
  gpg_keys_valid : Bool
  network_connected : Bool
  disk_space_adequate : Bool
  dependencies_ok : Bool
  overall_health : Bool
deriving DecidableEq

/-- `PackageManager.check_system_health` applied to the six probe outcomes. -/
def check_system_health (apt sources gpg network disk deps : Bool) : HealthStatus :=
  { apt_working := apt
    sources_valid := sources
    gpg_keys_valid := gpg
    network_connected := network
    disk_space_adequate := disk
    dependencies_ok := deps
    overall_health := apt && sources && network && disk }

/-- The four targeted repair routines of `repair_system_health`
(lines 252-266 of `src/package_manager.py`). -/
inductive PkgRepair where
  | emergencyAptRepair
  | fixSourcesList
  | fixGpgKeys
  | freeUpDiskSpace
deriving DecidableEq

/-- `PackageManager.repair_system_health`: the sequence of repair routines
invoked for a given health report (each guarded by the negation of its
probe field, in source order). -/
def repair_system_health (health_status : HealthStatus) : List PkgRepair :=
  (if health_status.apt_working then [] else [PkgRepair.emergencyAptRepair]) ++
  (if health_status.sources_valid then [] else [PkgRepair.fixSourcesList]) ++
  (if health_status.gpg_keys_valid then [] else [PkgRepair.fixGpgKeys]) ++
  (if health_status.disk_space_adequate then [] else [PkgRepair.freeUpDiskSpace])

/-- Filesystem effects observable from `_fix_sources_list`. -/
inductive FileAction where
  | renameFile (src dst : String)
  | writeFile (path contents : String)
deriving DecidableEq

/-- The replacement sources.list contents written by `_fix_sources_list`. -/
def kaliSources : String :=
  "# Kali Linux repositories\ndeb http://http.kali.org/kali kali-rolling main contrib non-free\n# deb-src http://http.kali.org/kali kali-rolling main contrib non-free\n"

/-- `PackageManager._fix_sources_list` (lines 295-317): if the sources file
exists it is renamed to a timestamped backup, then the known-good contents
are written. -/
def fix_sources_list (sources_list_exists : Bool) (timestamp : Nat) : List FileAction :=
  (if sources_list_exists then
    [FileAction.renameFile "/etc/apt/sources.list"
      ("/etc/apt/sources.list.backup." ++ toString timestamp)]
   else []) ++
  [FileAction.writeFile "/etc/apt/sources.list" kaliSources]

/-! ## SystemHealth.comprehensive_health_check

Translated from `src/system_health.py`, lines 12-34.  The nested probe
dictionaries are modelled as structures of probe outcomes; the overall
verdict is the conjunction of the three critical checks listed at lines
26-30 (`package_manager.apt_working`, `system.disk_space_adequate`,
`network.internet_connectivity`). -/

structure SHSystemReport where
  disk_space_adequate : Bool
  memory_adequate : Bool
  cpu_healthy : Bool
  kernel_version : String
  uptime : String
deriving DecidableEq

structure SHPackageReport where
  apt_working : Bool
  sources_valid : Bool
  gpg_keys_valid : Bool
  no_broken_packages : Bool
  cache_updated : Bool
deriving DecidableEq

structure SHNetworkReport where
  internet_connectivity : Bool
  dns_working : Bool
  wifi_hardware_present : Bool
  network_services_running : Bool
deriving DecidableEq

structure SHHardwareReport where
  wifi_devices : List String
  usb_devices : List String
  pci_devices : List String
  kernel_modules : List String
deriving DecidableEq

structure SHSecurityReport where
  firewall_status : String
  root_user : Bool
  system_updates : String
deriving DecidableEq

structure SHReport where
  system : SHSystemReport
  package_manager : SHPackageReport
  network : SHNetworkReport
  hardware : SHHardwareReport
  security : SHSecurityReport
  overall_health : Bool
deriving DecidableEq

/-- `SystemHealth.comprehensive_health_check` applied to the probe
outcomes of its five sub-reports. -/
def comprehensive_health_check (sys : SHSystemReport) (pm : SHPackageReport)
    (net : SHNetworkReport) (hw : SHHardwareReport) (sec : SHSecurityReport) : SHReport :=
  { system := sys
    package_manager := pm
    network := net
    hardware := hw
    security := sec
    overall_health := pm.apt_working && sys.disk_space_adequate && net.internet_connectivity }

/-! ## DriverManager

Translated from `src/driver_manager.py`.  Subprocess interactions are
supplied by a `DrvEnv`: the stdout of the two hardware enumeration
commands (plus a flag for an exception inside `_detect_wifi_hardware`,
which the function catches itself), the boolean outcome of each package
installation (the `_install_*` methods catch all exceptions), and the
outcome of each `modprobe` invocation in invocation order.  A `modprobe`
call can succeed, fail with `subprocess.CalledProcessError` (the only
exception `_load_kernel_module` catches, returning `False`), or raise
some other exception, which escapes `_load_kernel_module`. -/

/-- Outcome of one `subprocess.run(['modprobe', m], check=True)` call. -/
inductive ModOutcome where
  | loadedOk
  | calledProcessErr
  | otherExc
deriving DecidableEq

structure DrvEnv where
  pci_stdout : String
  usb_stdout : String
  detect_raised : Bool
  pkg_install : String → Bool
  mod_load : Nat → ModOutcome
  build_tools_raised : Bool
  realtek_compile_ok : Bool
  broadcom_compile_ok : Bool

/-- Observable actions of the driver-recovery engine, including markers
for entering each step of `install_required_drivers`. -/
inductive DrvAction where
  | modprobeAttempt (m : String)
  | pkgInstallAttempt (p : String)
  | rfkillUnblockAll
  | restartNetworkManager
  | onlineStep
  | offlineStep
  | genericStep
  | emergencyStep
deriving DecidableEq

/-- Built-in offline driver database `_load_offline_drivers` (lines 14-47);
the optional JSON overlay file is absent, so the defaults are used. -/
structure DriverInfo where
  packages : List String
  modules : List String
  devices : List String

def offline_drivers : List (String × DriverInfo) :=
  [("atheros",
    ⟨["firmware-atheros", "firmware-linux-nonfree"],
     ["ath9k", "ath9k_common", "ath9k_hw"],
     ["Atheros", "AR93", "AR94", "AR95"]⟩),
   ("realtek",
    ⟨["firmware-realtek", "firmware-linux-nonfree"],
     ["rtl8192cu", "rtl8xxxu", "rt2800usb"],
     ["Realtek", "RTL81", "RTL82"]⟩),
   ("intel",
    ⟨["firmware-iwlwifi", "firmware-linux"],
     ["iwlwifi", "iwlmvm"],
     ["Intel", "Centrino", "Wireless-AC"]⟩),
   ("broadcom",
    ⟨["firmware-brcm80211", "b43-fwcutter"],
     ["brcmsmac", "b43"],
     ["Broadcom", "BCM43"]⟩)]

/-- The hardware-type identification loop of `_try_offline_installation`
(lines 110-120): the first family whose `devices` marker occurs in
`hardware_info.lower()` wins, else `generic`.  Note the source compares
the mixed-case markers against the lowercased descriptor. -/
def identifyDriverType (hardware_info : String) : String :=
  let hardware_lower := pyLower hardware_info
  match offline_drivers.find?
      (fun p => p.2.devices.any (fun device => pyContains hardware_lower device)) with
  | some p => p.1
  | none => "generic"

/-- `_detect_wifi_hardware` (lines 251-283): filter the PCI listing for
lines containing `Network controller` or with `Wireless` in the lowercased
line, filter the USB listing for lines containing `Wireless` or `802.11`,
strip each, and join with `, `; when nothing matched or an exception was
raised, return `"Unknown"`. -/
def pciWifiPred (line : String) : Bool :=
  pyContains line "Network controller" || pyContains (pyLower line) "Wireless"

def usbWifiPred (line : String) : Bool :=
  pyContains line "Wireless" || pyContains line "802.11"

def detect_wifi_hardware (pci_stdout usb_stdout : String) (raised : Bool) : String :=
  if raised then "Unknown"
  else
    let wifi_devices := ((pySplitLines pci_stdout).filter pciWifiPred).map pyStrip ++
      ((pySplitLines usb_stdout).filter usbWifiPred).map pyStrip
    if wifi_devices.isEmpty then "Unknown" else pyJoin ", " wifi_devices

/-- `_load_kernel_module` (lines 318-326): returns `true` on success,
`false` on `CalledProcessError`; any other exception escapes (`none`). -/
def load_kernel_module (env : DrvEnv) (k : Nat) (m : String) :
    Nat × List DrvAction × Option Bool :=
  (k + 1, [DrvAction.modprobeAttempt m],
    match env.mod_load k with
    | ModOutcome.loadedOk => some true
    | ModOutcome.calledProcessErr => some false
    | ModOutcome.otherExc => none)

/-- Load a list of modules in order, counting successes; an escaping
exception aborts the loop and propagates (`none`). -/
def loadModulesCount (env : DrvEnv) : Nat → List String → Nat × List DrvAction × Option Nat
  | k, [] => (k, [], some 0)
  | k, m :: ms =>
    match load_kernel_module env k m with
    | (k1, a1, none) => (k1, a1, none)
    | (k1, a1, some b) =>
      match loadModulesCount env k1 ms with
      | (k2, a2, none) => (k2, a1 ++ a2, none)
      | (k2, a2, some c) => (k2, a1 ++ a2, some (if b then c + 1 else c))

/-- The module list of `_load_wifi_modules` (lines 307-316). -/
def wifi_modules : List String :=
  ["ath9k", "ath9k_common", "ath9k_hw", "ath10k_pci", "rt2800usb", "rt2x00usb",
   "iwlwifi", "rtl8192cu", "rtl8xxxu"]

/-- The `all_modules` list of `_emergency_driver_installation` (lines 238-242). -/
def all_modules : List String :=
  ["ath9k", "ath9k_common", "ath9k_hw", "ath10k_pci", "rtl8192cu", "rtl8xxxu",
   "rt2800usb", "rt2x00usb", "iwlwifi", "iwlmvm", "brcmsmac", "b43", "wl"]

/-- `_load_wifi_modules`: loads the standard module set, ignoring counts. -/
def load_wifi_modules (env : DrvEnv) (k : Nat) : Nat × List DrvAction × Option Unit :=
  match loadModulesCount env k wifi_modules with
  | (k1, a1, none) => (k1, a1, none)
  | (k1, a1, some _) => (k1, a1, some ())

/-- `_get_driver_packages` (lines 285-305).  Python's `list(set(...))`
has unspecified order; it is modelled as an order-preserving
deduplication, which the claims never distinguish. -/
def get_driver_packages (hardware_info : String) : List String :=
  let hardware_lower := pyLower hardware_info
  let base := ["firmware-linux", "firmware-linux-nonfree", "wireless-tools", "wpasupplicant"]
  let packages := base ++
    (if pyContains hardware_lower "atheros" then ["firmware-atheros"]
     else if pyContains hardware_lower "realtek" then ["firmware-realtek", "firmware-realtek"]
     else if pyContains hardware_lower "intel" || pyContains hardware_lower "iwlwifi" then
       ["firmware-iwlwifi"]
     else if pyContains hardware_lower "broadcom" then ["firmware-brcm80211", "b43-fwcutter"]
     else [])
  packages.eraseDups

/-- `_try_online_installation` (lines 85-104): install each candidate
package through the fallback chain (never raises), load the standard
module set, and judge success by the 50% threshold. -/
def try_online_installation (env : DrvEnv) (k : Nat) (hardware_info : String) :
    Nat × List DrvAction × Option Bool :=
  let driver_packages := get_driver_packages hardware_info
  let install_acts := driver_packages.map DrvAction.pkgInstallAttempt
  let success_count := (driver_packages.filter env.pkg_install).length
  match load_wifi_modules env k with
  | (k1, a1, none) => (k1, install_acts ++ a1, none)
  | (k1, a1, some _) =>
    (k1, install_acts ++ a1, some (onlineJudge success_count driver_packages.length))

/-- Dictionary lookup `self.offline_drivers[driver_type]`. -/
def lookupDriverInfo (driver_type : String) : Option DriverInfo :=
  match offline_drivers.find? (fun p => p.1 = driver_type) with
  | some p => some p.2
  | none => none

/-- `_activate_existing_drivers` (lines 134-147): load the family's
modules and succeed when at least one loaded. -/
def activate_existing_drivers (env : DrvEnv) (k : Nat) (driver_type : String) :
    Nat × List DrvAction × Option Bool :=
  match lookupDriverInfo driver_type with
  | some driver_info =>
    match loadModulesCount env k driver_info.modules with
    | (k1, a1, none) => (k1, a1, none)
    | (k1, a1, some c) => (k1, a1, some (decide (c > 0)))
  | none => (k, [], some false)

/-- `_compile_drivers_from_source` (lines 149-171): the whole body is
wrapped in `try/except Exception`, so it never raises; the realtek and
broadcom sub-builds catch their own failures and are abstracted as
environment booleans; the atheros path just loads `ath9k`, any escaping
exception being caught by the wrapper. -/
def compile_drivers_from_source (env : DrvEnv) (k : Nat) (driver_type : String) :
    Nat × List DrvAction × Bool :=
  if env.build_tools_raised then (k, [], false)
  else if driver_type = "realtek" then (k, [], env.realtek_compile_ok)
  else if driver_type = "atheros" then
    match load_kernel_module env k "ath9k" with
    | (k1, a1, none) => (k1, a1, false)
    | (k1, a1, some b) => (k1, a1, b)
  else if driver_type = "broadcom" then (k, [], env.broadcom_compile_ok)
  else (k, [], false)

/-- `_try_offline_installation` (lines 106-132): classify, try to
activate existing drivers, then try a source build. -/
def try_offline_installation (env : DrvEnv) (k : Nat) (hardware_info : String) :
    Nat × List DrvAction × Option Bool :=
  let driver_type := identifyDriverType hardware_info
  match activate_existing_drivers env k driver_type with
  | (k1, a1, none) => (k1, a1, none)
  | (k1, a1, some true) => (k1, a1, some true)
  | (k1, a1, some false) =>
    match compile_drivers_from_source env k1 driver_type with
    | (k2, a2, ok) => (k2, a1 ++ a2, some ok)

/-- The generic package list of `_install_generic_drivers` (lines 213-220). -/
def generic_packages : List String :=
  ["firmware-linux", "firmware-linux-nonfree", "wireless-tools", "wpasupplicant",
   "net-tools", "iw"]

/-- `_install_generic_drivers` (lines 209-231): best-effort package
installs, then load the standard module set. -/
def install_generic_drivers (env : DrvEnv) (k : Nat) : Nat × List DrvAction × Option Unit :=
  let install_acts := generic_packages.map DrvAction.pkgInstallAttempt
  match load_wifi_modules env k with
  | (k1, a1, r) => (k1, install_acts ++ a1, r)

/-- `_emergency_driver_installation` (lines 233-249): load every module of
`all_modules`, unblock rfkill, restart NetworkManager.  The module loads
go through `_load_kernel_module`, so an exception other than
`CalledProcessError` escapes this routine too. -/
def emergency_driver_installation (env : DrvEnv) (k : Nat) : Nat × List DrvAction × Option Unit :=
  match loadModulesCount env k all_modules with
  | (k1, a1, none) => (k1, a1, none)
  | (k1, a1, some _) =>
    (k1, a1 ++ [DrvAction.rfkillUnblockAll, DrvAction.restartNetworkManager], some ())

/-- The body of the `try` block of `install_required_drivers`
(lines 51-79), given the already-detected hardware descriptor.  Python's
`if not hardware_info` is truthiness on a string, i.e. the test
`hardware_info = ""`. -/
def installSteps (env : DrvEnv) (k : Nat) (hardware_info : String) :
    Nat × List DrvAction × Option Unit :=
  if hardware_info = "" then
    match install_generic_drivers env k with
    | (k1, a1, r) => (k1, DrvAction.genericStep :: a1, r)
  else
    match try_online_installation env k hardware_info with
    | (k1, a1, none) => (k1, DrvAction.onlineStep :: a1, none)
    | (k1, a1, some true) => (k1, DrvAction.onlineStep :: a1, some ())
    | (k1, a1, some false) =>
      match try_offline_installation env k1 hardware_info with
      | (k2, a2, none) =>
        (k2, DrvAction.onlineStep :: a1 ++ DrvAction.offlineStep :: a2, none)
      | (k2, a2, some true) =>
        (k2, DrvAction.onlineStep :: a1 ++ DrvAction.offlineStep :: a2, some ())
      | (k2, a2, some false) =>
        match install_generic_drivers env k2 with
        | (k3, a3, r) =>
          (k3, DrvAction.onlineStep :: a1 ++ DrvAction.offlineStep :: a2 ++
            DrvAction.genericStep :: a3, r)

/-- `install_required_drivers` (lines 49-83): run the detection and the
four steps inside `try`; on any escaping exception run the emergency
installation (outside any handler, so its own escaping exception
propagates to the caller). -/
def install_required_drivers (env : DrvEnv) : Nat × List DrvAction × Option Unit :=
  let hardware_info := detect_wifi_hardware env.pci_stdout env.usb_stdout env.detect_raised
  match installSteps env 0 hardware_info with
  | (k1, a1, some u) => (k1, a1, some u)
  | (k1, a1, none) =>
    match emergency_driver_installation env k1 with
    | (k2, a2, r) => (k2, a1 ++ DrvAction.emergencyStep :: a2, r)

/-! ## ErrorHandler

Translated from `src/error_handler.py`.  A failure is its Python type
name and message; each typed repair routine runs subprocesses and
catches its own failures, so its boolean outcome is supplied by the
environment. -/

/-- The five typed repair routines of the `error_handlers` table. -/
inductive HandlerTag where
  | permissionIssues
  | missingFiles
  | subprocessErrors
  | osErrors
  | connectionIssues
deriving DecidableEq

/-- The `error_handlers` table of `handle_error` (lines 28-34). -/
def error_handlers : List (String × HandlerTag) :=
  [("PermissionError", HandlerTag.permissionIssues),
   ("FileNotFoundError", HandlerTag.missingFiles),
   ("subprocess.CalledProcessError", HandlerTag.subprocessErrors),
   ("OSError", HandlerTag.osErrors),
   ("ConnectionError", HandlerTag.connectionIssues)]

/-- The five general repair routines reachable from
`_analyze_and_fix_general` (lines 154-167). -/
inductive GeneralFix where
  | packageSystem
  | networkSystem
  | driverSystem
  | resourceIssues
  | generalRepair
deriving DecidableEq

/-- One keyword scan `any(word in error_msg.lower() for word in kws)`. -/
def keywordHit (error_msg : String) (keywords : List String) : Bool :=
  keywords.any (fun word => pyContains (pyLower error_msg) word)

/-- `_analyze_and_fix_general`: keyword sets tried in source order. -/
def analyze_and_fix_general (error_msg : String) : GeneralFix :=
  if keywordHit error_msg ["broken", "dependency", "dpkg"] then GeneralFix.packageSystem
  else if keywordHit error_msg ["network", "connection", "unreachable"] then
    GeneralFix.networkSystem
  else if keywordHit error_msg ["driver", "firmware", "module"] then GeneralFix.driverSystem
  else if keywordHit error_msg ["memory", "space", "disk"] then GeneralFix.resourceIssues
  else GeneralFix.generalRepair

/-- The table loop of `handle_error` (lines 37-40): an entry fires when
its key occurs in the type name or the message; a firing entry's routine
runs, and a `True` outcome stops the triage.  Returns the invoked
routines in order plus whether one succeeded. -/
def dispatchHandlers (error_type error_msg : String) (handler_result : HandlerTag → Bool) :
    List (String × HandlerTag) → List HandlerTag × Bool
  | [] => ([], false)
  | (key, tag) :: rest =>
    if pyContains error_type key || pyContains error_msg key then
      if handler_result tag then ([tag], true)
      else
        let r := dispatchHandlers error_type error_msg handler_result rest
        (tag :: r.1, r.2)
    else dispatchHandlers error_type error_msg handler_result rest

/-- `handle_error` (lines 12-43): run the table loop; when no firing
entry succeeded, fall back to `_analyze_and_fix_general`. -/
def handle_error (error_type error_msg : String) (handler_result : HandlerTag → Bool) :
    List HandlerTag × Option GeneralFix :=
  let r := dispatchHandlers error_type error_msg handler_result error_handlers
  if r.2 then (r.1, none) else (r.1, some (analyze_and_fix_general error_msg))

/-! ## Concrete environments used by witnesses and counterexamples -/

/-- Environment where every `modprobe` invocation raises an exception
other than `CalledProcessError` (e.g. the binary is missing). -/
def envAllOtherExc : DrvEnv :=
  { pci_stdout := ""
    usb_stdout := ""
    detect_raised := false
    pkg_install := fun _ => false
    mod_load := fun _ => ModOutcome.otherExc
    build_tools_raised := false
    realtek_compile_ok := false
    broadcom_compile_ok := false }

/-- Environment where every subprocess interaction behaves benignly. -/
def envAllOk : DrvEnv :=
  { pci_stdout := ""
    usb_stdout := ""
    detect_raised := false
    pkg_install := fun _ => true
    mod_load := fun _ => ModOutcome.loadedOk
    build_tools_raised := false
    realtek_compile_ok := true
    broadcom_compile_ok := true }

/-- Environment where every module load fails with `CalledProcessError`
and every package install fails, but nothing raises. -/
def envAllFail : DrvEnv :=
  { pci_stdout := ""
    usb_stdout := ""
    detect_raised := false
    pkg_install := fun _ => false
    mod_load := fun _ => ModOutcome.calledProcessErr
    build_tools_raised := false
    realtek_compile_ok := false
    broadcom_compile_ok := false }

/-- System sub-report with every boolean probe passing. -/
def shSysAllTrue : SHSystemReport :=
  { disk_space_adequate := true
    memory_adequate := true
    cpu_healthy := true
    kernel_version := "Linux version 6.6"
    uptime := "3 hours" }

/-- Package-manager sub-report where only `sources_valid` fails. -/
def shPkgSourcesFalse : SHPackageReport :=
  { apt_working := true
    sources_valid := false
    gpg_keys_valid := true
    no_broken_packages := true
    cache_updated := true }

/-- Network sub-report with every probe passing. -/
def shNetAllTrue : SHNetworkReport :=
  { internet_connectivity := true
    dns_working := true
    wifi_hardware_present := true
    network_services_running := true }

/-- Empty hardware sub-report. -/
def shHwEmpty : SHHardwareReport :=
  { wifi_devices := []
    usb_devices := []
    pci_devices := []
    kernel_modules := [] }

/-- Security sub-report. -/
def shSecDefault : SHSecurityReport :=
  { firewall_status := "Enabled"
    root_user := true
    system_updates := "Up to date" }


/-! ## Helper lemmas -/

theorem onlineJudge_iff (s n : Nat) : onlineJudge s n = true ↔ 2 * s ≥ n := by
  unfold onlineJudge
  rw [decide_eq_true_iff]
  constructor
  · intro h
    have h2 : (n : ℚ) ≤ 2 * s := by linarith
    exact_mod_cast h2
  · intro h
    have h2 : (n : ℚ) ≤ 2 * s := by exact_mod_cast h
    linarith

theorem subMatch_head_mem {p : Char} {ps s : List Char} (h : subMatch (p :: ps) s = true) :
    p ∈ s := by
  induction s with
  | nil => simp [subMatch, leadMatch] at h
  | cons c cs ih =>
    rw [subMatch, Bool.or_eq_true] at h
    rcases h with h | h
    · rw [leadMatch, Bool.and_eq_true] at h
      have : p = c := by simpa using h.1
      simp [this]
    · simp [ih h]

theorem charOfNat_toNat {n : Nat} (h : n < 0xd800) : (Char.ofNat n).toNat = n := by
  unfold Char.ofNat
  rw [dif_pos (Or.inl h)]
  simp [Char.ofNatAux, Char.toNat, UInt32.toNat, BitVec.ofNatLt]

theorem pyLowerChar_not_upper (c : Char) :
    (pyLowerChar c).toNat < 65 ∨ 90 < (pyLowerChar c).toNat := by
  unfold pyLowerChar
  by_cases h : 65 ≤ c.toNat ∧ c.toNat ≤ 90
  · rw [if_pos h]
    right
    rw [charOfNat_toNat (by omega)]
    omega
  · rw [if_neg h]
    omega

theorem upper_not_mem_map_pyLowerChar {p : Char} (h65 : 65 ≤ p.toNat) (h90 : p.toNat ≤ 90)
    (l : List Char) : p ∉ l.map pyLowerChar := by
  intro hmem
  rcases List.mem_map.mp hmem with ⟨c, _, hc⟩
  rcases pyLowerChar_not_upper c with h | h <;> rw [hc] at h <;> omega

theorem subMatch_upper_false {p : Char} (ps : List Char) (h65 : 65 ≤ p.toNat)
    (h90 : p.toNat ≤ 90) (l : List Char) :
    subMatch (p :: ps) (l.map pyLowerChar) = false := by
  rcases h : subMatch (p :: ps) (l.map pyLowerChar) with _ | _
  · rfl
  · exact absurd (subMatch_head_mem h) (upper_not_mem_map_pyLowerChar h65 h90 l)

theorem pyContains_pyLower_upper (s pat : String) (p : Char) (ps : List Char)
    (hd : pat.data = p :: ps) (h65 : 65 ≤ p.toNat) (h90 : p.toNat ≤ 90) :
    pyContains (pyLower s) pat = false := by
  show subMatch pat.data (pyLower s).data = false
  rw [hd]
  exact subMatch_upper_false ps h65 h90 s.data

-- C3 universal
theorem identify_always_generic (d : String) : identifyDriverType d = "generic" := by
  have hA := pyContains_pyLower_upper d "Atheros" 'A' "theros".data rfl (by decide) (by decide)
  have h1 := pyContains_pyLower_upper d "AR93" 'A' "R93".data rfl (by decide) (by decide)
  have h2 := pyContains_pyLower_upper d "AR94" 'A' "R94".data rfl (by decide) (by decide)
  have h3 := pyContains_pyLower_upper d "AR95" 'A' "R95".data rfl (by decide) (by decide)
  have hR := pyContains_pyLower_upper d "Realtek" 'R' "ealtek".data rfl (by decide) (by decide)
  have h4 := pyContains_pyLower_upper d "RTL81" 'R' "TL81".data rfl (by decide) (by decide)
  have h5 := pyContains_pyLower_upper d "RTL82" 'R' "TL82".data rfl (by decide) (by decide)
  have hI := pyContains_pyLower_upper d "Intel" 'I' "ntel".data rfl (by decide) (by decide)
  have hC := pyContains_pyLower_upper d "Centrino" 'C' "entrino".data rfl (by decide) (by decide)
  have hW := pyContains_pyLower_upper d "Wireless-AC" 'W' "ireless-AC".data rfl (by decide) (by decide)
  have hB := pyContains_pyLower_upper d "Broadcom" 'B' "roadcom".data rfl (by decide) (by decide)
  have h6 := pyContains_pyLower_upper d "BCM43" 'B' "CM43".data rfl (by decide) (by decide)
  simp [identifyDriverType, offline_drivers, List.find?, List.any,
    hA, h1, h2, h3, hR, h4, h5, hI, hC, hW, hB, h6]

theorem mem_dropLeadWS {c : Char} (hc : c.isWhitespace = false) :
    ∀ l : List Char, c ∈ l → c ∈ dropLeadWS l := by
  intro l
  induction l with
  | nil => intro h; exact absurd h (List.not_mem_nil c)
  | cons x xs ih =>
    intro h
    rw [dropLeadWS]
    rcases List.mem_cons.mp h with rfl | hmem
    · simp [hc]
    · cases hx : x.isWhitespace
      · simp [hx, List.mem_cons, hmem]
      · simp [hx, ih hmem]

theorem pyStrip_ne_empty {s : String} {c : Char} (hc : c.isWhitespace = false)
    (hmem : c ∈ s.data) : pyStrip s ≠ "" := by
  intro h
  have hdata : (pyStrip s).data = [] := congrArg String.data h
  have h1 : c ∈ dropLeadWS s.data := mem_dropLeadWS hc _ hmem
  have h2 : c ∈ (dropLeadWS s.data).reverse := List.mem_reverse.mpr h1
  have h3 : c ∈ dropLeadWS ((dropLeadWS s.data).reverse) := mem_dropLeadWS hc _ h2
  have h4 : c ∈ (dropLeadWS ((dropLeadWS s.data).reverse)).reverse := List.mem_reverse.mpr h3
  have h5 : (pyStrip s).data = (dropLeadWS ((dropLeadWS s.data).reverse)).reverse := rfl
  rw [h5] at hdata
  rw [hdata] at h4
  exact absurd h4 (List.not_mem_nil c)

theorem string_append_data (a b : String) : (a ++ b).data = a.data ++ b.data := rfl

theorem pyJoin_cons2_ne_empty (x y : String) (xs : List String) :
    pyJoin ", " (x :: y :: xs) ≠ "" := by
  intro h
  have hdata : (pyJoin ", " (x :: y :: xs)).data = [] := congrArg String.data h
  rw [pyJoin, string_append_data, string_append_data] at hdata
  simp at hdata

theorem loadModulesCount_ok (env : DrvEnv) (h : ∀ j, env.mod_load j ≠ ModOutcome.otherExc) :
    ∀ (ms : List String) (k : Nat), ∃ c,
      loadModulesCount env k ms = (k + ms.length, ms.map DrvAction.modprobeAttempt, some c) := by
  intro ms
  induction ms with
  | nil => intro k; exact ⟨0, by simp [loadModulesCount]⟩
  | cons m rest ih =>
    intro k
    rcases ih (k + 1) with ⟨c, hc⟩
    have hm := h k
    rcases hout : env.mod_load k with _ | _ | _
    · exact ⟨c + 1, by
        simp [loadModulesCount, load_kernel_module, hout, hc, List.length_cons]
        omega⟩
    · exact ⟨c, by
        simp [loadModulesCount, load_kernel_module, hout, hc, List.length_cons]
        omega⟩
    · exact absurd hout hm

theorem loadModulesCount_actions (env : DrvEnv) :
    ∀ (ms : List String) (k : Nat) (x : DrvAction),
      x ∈ (loadModulesCount env k ms).2.1 → ∃ m, x = DrvAction.modprobeAttempt m := by
  intro ms
  induction ms with
  | nil => intro k x hx; simp [loadModulesCount] at hx
  | cons m rest ih =>
    intro k x hx
    have ihx : x ∈ (loadModulesCount env (k + 1) rest).2.1 →
        ∃ m, x = DrvAction.modprobeAttempt m := ih (k + 1) x
    rcases hres : loadModulesCount env (k + 1) rest with ⟨k2, a2, r2⟩
    rw [hres] at ihx
    rw [loadModulesCount] at hx
    rcases hout : env.mod_load k with _ | _ | _ <;>
      rcases r2 with _ | c <;>
      simp [load_kernel_module, hout, hres] at hx <;>
      first
        | exact ⟨m, hx⟩
        | (rcases hx with rfl | hx
           · exact ⟨m, rfl⟩
           · exact ihx (by simp [hx]))

theorem load_wifi_modules_ok (env : DrvEnv) (h : ∀ j, env.mod_load j ≠ ModOutcome.otherExc)
    (k : Nat) : load_wifi_modules env k =
      (k + wifi_modules.length, wifi_modules.map DrvAction.modprobeAttempt, some ()) := by
  obtain ⟨c, hc⟩ := loadModulesCount_ok env h wifi_modules k
  simp [load_wifi_modules, hc]

theorem try_online_installation_ok (env : DrvEnv)
    (h : ∀ j, env.mod_load j ≠ ModOutcome.otherExc) (k : Nat) (hw : String) :
    try_online_installation env k hw =
      (k + wifi_modules.length,
       (get_driver_packages hw).map DrvAction.pkgInstallAttempt ++
         wifi_modules.map DrvAction.modprobeAttempt,
       some (onlineJudge ((get_driver_packages hw).filter env.pkg_install).length
         (get_driver_packages hw).length)) := by
  simp [try_online_installation, load_wifi_modules_ok env h k]

theorem activate_existing_drivers_ok (env : DrvEnv)
    (h : ∀ j, env.mod_load j ≠ ModOutcome.otherExc) (k : Nat) (dt : String) :
    ∃ k1 a1 b, activate_existing_drivers env k dt = (k1, a1, some b) := by
  unfold activate_existing_drivers
  rcases lookupDriverInfo dt with _ | info
  · exact ⟨k, [], false, rfl⟩
  · obtain ⟨c, hc⟩ := loadModulesCount_ok env h info.modules k
    dsimp only
    rw [hc]
    exact ⟨_, _, _, rfl⟩

theorem try_offline_installation_ok (env : DrvEnv)
    (h : ∀ j, env.mod_load j ≠ ModOutcome.otherExc) (k : Nat) (hw : String) :
    ∃ k1 a1 b, try_offline_installation env k hw = (k1, a1, some b) := by
  obtain ⟨k1, a1, b, hact⟩ := activate_existing_drivers_ok env h k (identifyDriverType hw)
  unfold try_offline_installation
  dsimp only
  rw [hact]
  cases b
  · rcases hcomp : compile_drivers_from_source env k1 (identifyDriverType hw) with ⟨k2, a2, ok⟩
    dsimp only
    rw [hcomp]
    exact ⟨_, _, _, rfl⟩
  · exact ⟨_, _, _, rfl⟩

theorem install_generic_drivers_ok (env : DrvEnv)
    (h : ∀ j, env.mod_load j ≠ ModOutcome.otherExc) (k : Nat) :
    install_generic_drivers env k =
      (k + wifi_modules.length,
       generic_packages.map DrvAction.pkgInstallAttempt ++
         wifi_modules.map DrvAction.modprobeAttempt,
       some ()) := by
  simp [install_generic_drivers, load_wifi_modules_ok env h k]

theorem installSteps_ok (env : DrvEnv) (h : ∀ j, env.mod_load j ≠ ModOutcome.otherExc)
    (k : Nat) (hw : String) : (installSteps env k hw).2.2 = some () := by
  unfold installSteps
  by_cases hempty : hw = ""
  · rw [if_pos hempty, install_generic_drivers_ok env h k]
  · rw [if_neg hempty, try_online_installation_ok env h k hw]
    cases hjudge : onlineJudge ((get_driver_packages hw).filter env.pkg_install).length
        (get_driver_packages hw).length
    · dsimp only
      obtain ⟨k2, a2, b, hoff⟩ := try_offline_installation_ok env h (k + wifi_modules.length) hw
      rw [hoff]
      cases b
      · dsimp only
        rw [install_generic_drivers_ok env h k2]
      · rfl
    · rfl

theorem emergency_driver_installation_ok (env : DrvEnv)
    (h : ∀ j, env.mod_load j ≠ ModOutcome.otherExc) (k : Nat) :
    emergency_driver_installation env k =
      (k + all_modules.length,
       all_modules.map DrvAction.modprobeAttempt ++
         [DrvAction.rfkillUnblockAll, DrvAction.restartNetworkManager],
       some ()) := by
  obtain ⟨c, hc⟩ := loadModulesCount_ok env h all_modules k
  simp [emergency_driver_installation, hc]

theorem install_required_drivers_ok (env : DrvEnv)
    (h : ∀ j, env.mod_load j ≠ ModOutcome.otherExc) :
    (install_required_drivers env).2.2 = some () := by
  rcases hst : installSteps env 0
      (detect_wifi_hardware env.pci_stdout env.usb_stdout env.detect_raised) with ⟨k1, a1, r1⟩
  have hok := installSteps_ok env h 0
      (detect_wifi_hardware env.pci_stdout env.usb_stdout env.detect_raised)
  rw [hst] at hok
  simp at hok
  rw [hok] at hst
  unfold install_required_drivers
  dsimp only
  rw [hst]

theorem install_generic_drivers_actions (env : DrvEnv) (k : Nat) (x : DrvAction)
    (hx : x ∈ (install_generic_drivers env k).2.1) :
    (∃ p, x = DrvAction.pkgInstallAttempt p) ∨ (∃ m, x = DrvAction.modprobeAttempt m) := by
  rcases hlm : loadModulesCount env k wifi_modules with ⟨k1, a1, r1⟩
  have hacts := loadModulesCount_actions env wifi_modules k x
  rw [hlm] at hacts
  unfold install_generic_drivers load_wifi_modules at hx
  dsimp only at hx
  rw [hlm] at hx
  rcases r1 with _ | c <;> dsimp only at hx <;> rw [List.mem_append] at hx <;>
    rcases hx with hx | hx
  · exact Or.inl (by rcases List.mem_map.mp hx with ⟨p, -, rfl⟩; exact ⟨p, rfl⟩)
  · exact Or.inr (hacts hx)
  · exact Or.inl (by rcases List.mem_map.mp hx with ⟨p, -, rfl⟩; exact ⟨p, rfl⟩)
  · exact Or.inr (hacts hx)

theorem installSteps_empty_trace (env : DrvEnv) (k : Nat) :
    (installSteps env k "").2.1 =
      DrvAction.genericStep :: (install_generic_drivers env k).2.1 := by
  unfold installSteps
  rw [if_pos rfl]

theorem installSteps_empty_no_online (env : DrvEnv) (k : Nat) :
    DrvAction.onlineStep ∉ (installSteps env k "").2.1 ∧
    DrvAction.offlineStep ∉ (installSteps env k "").2.1 ∧
    DrvAction.genericStep ∈ (installSteps env k "").2.1 := by
  rw [installSteps_empty_trace]
  refine ⟨?_, ?_, List.mem_cons_self _ _⟩
  · intro hmem
    rcases List.mem_cons.mp hmem with h | h
    · exact absurd h (by decide)
    · rcases install_generic_drivers_actions env k _ h with ⟨p, hp⟩ | ⟨m, hm⟩
      · exact absurd hp (by simp)
      · exact absurd hm (by simp)
  · intro hmem
    rcases List.mem_cons.mp hmem with h | h
    · exact absurd h (by decide)
    · rcases install_generic_drivers_actions env k _ h with ⟨p, hp⟩ | ⟨m, hm⟩
      · exact absurd hp (by simp)
      · exact absurd hm (by simp)

theorem installSteps_head_online (env : DrvEnv) (k : Nat) (hw : String) (hne : hw ≠ "") :
    ∃ rest, (installSteps env k hw).2.1 = DrvAction.onlineStep :: rest := by
  unfold installSteps
  rw [if_neg hne]
  rcases hon : try_online_installation env k hw with ⟨k1, a1, r1⟩
  rcases r1 with _ | b
  · exact ⟨a1, rfl⟩
  · cases b
    · dsimp only
      rcases hoff : try_offline_installation env k1 hw with ⟨k2, a2, r2⟩
      rcases r2 with _ | b2
      · exact ⟨a1 ++ DrvAction.offlineStep :: a2, rfl⟩
      · cases b2
        · dsimp only
          rcases hg : install_generic_drivers env k2 with ⟨k3, a3, r3⟩
          exact ⟨a1 ++ DrvAction.offlineStep :: a2 ++ DrvAction.genericStep :: a3, rfl⟩
        · exact ⟨a1 ++ DrvAction.offlineStep :: a2, rfl⟩
    · exact ⟨a1, rfl⟩

theorem pci_line_strip_ne_empty (line : String)
    (h : (pyContains line "Network controller" || pyContains (pyLower line) "Wireless") = true) :
    pyStrip line ≠ "" := by
  rw [Bool.or_eq_true] at h
  rcases h with h | h
  · have h' : subMatch ('N' :: "etwork controller".data) line.data = true := h
    exact pyStrip_ne_empty (by decide) (subMatch_head_mem h')
  · have hfalse : subMatch ('W' :: "ireless".data) (line.data.map pyLowerChar) = false :=
      subMatch_upper_false _ (by decide) (by decide) line.data
    have h' : subMatch ('W' :: "ireless".data) (line.data.map pyLowerChar) = true := h
    rw [hfalse] at h'
    exact absurd h' (by simp)

theorem usb_line_strip_ne_empty (line : String)
    (h : (pyContains line "Wireless" || pyContains line "802.11") = true) :
    pyStrip line ≠ "" := by
  rw [Bool.or_eq_true] at h
  rcases h with h | h
  · have h' : subMatch ('W' :: "ireless".data) line.data = true := h
    exact pyStrip_ne_empty (by decide) (subMatch_head_mem h')
  · have h' : subMatch ('8' :: "02.11".data) line.data = true := h
    exact pyStrip_ne_empty (by decide) (subMatch_head_mem h')

theorem wifi_device_ne_empty (pci usb : String) (d : String)
    (hd : d ∈ ((pySplitLines pci).filter pciWifiPred).map pyStrip ++
      ((pySplitLines usb).filter usbWifiPred).map pyStrip) : d ≠ "" := by
  rw [List.mem_append] at hd
  rcases hd with hd | hd <;> rcases List.mem_map.mp hd with ⟨line, hline, rfl⟩
  · exact pci_line_strip_ne_empty line (List.mem_filter.mp hline).2
  · exact usb_line_strip_ne_empty line (List.mem_filter.mp hline).2

theorem detect_wifi_hardware_ne_empty (pci usb : String) (raised : Bool) :
    detect_wifi_hardware pci usb raised ≠ "" := by
  unfold detect_wifi_hardware
  cases raised
  · dsimp only
    rcases hL : ((pySplitLines pci).filter pciWifiPred).map pyStrip ++
        ((pySplitLines usb).filter usbWifiPred).map pyStrip with _ | ⟨x, xs⟩
    · decide
    · have hred : (if false = true then "Unknown"
          else if (x :: xs).isEmpty = true then "Unknown" else pyJoin ", " (x :: xs)) =
          pyJoin ", " (x :: xs) := by simp
      rw [hred]
      rcases xs with _ | ⟨y, ys⟩
      · have hx : x ∈ ((pySplitLines pci).filter pciWifiPred).map pyStrip ++
            ((pySplitLines usb).filter usbWifiPred).map pyStrip := by
          rw [hL]; exact List.mem_cons_self _ _
        simpa [pyJoin] using wifi_device_ne_empty pci usb x hx
      · exact pyJoin_cons2_ne_empty x y ys
  · rw [if_pos rfl]
    decide

theorem install_required_drivers_head_online (env : DrvEnv) :
    ∃ rest, (install_required_drivers env).2.1 = DrvAction.onlineStep :: rest := by
  obtain ⟨rest, hrest⟩ := installSteps_head_online env 0
    (detect_wifi_hardware env.pci_stdout env.usb_stdout env.detect_raised)
    (detect_wifi_hardware_ne_empty env.pci_stdout env.usb_stdout env.detect_raised)
  unfold install_required_drivers
  dsimp only
  rcases hst : installSteps env 0
      (detect_wifi_hardware env.pci_stdout env.usb_stdout env.detect_raised) with ⟨k1, a1, r1⟩
  rw [hst] at hrest
  dsimp only at hrest
  rcases r1 with _ | u
  · dsimp only
    rcases hem : emergency_driver_installation env k1 with ⟨k2, a2, r2⟩
    dsimp only
    rw [hrest]
    exact ⟨rest ++ DrvAction.emergencyStep :: a2, rfl⟩
  · exact ⟨rest, hrest⟩

theorem dispatchHandlers_no_success (etype emsg : String) (res : HandlerTag → Bool) :
    ∀ tbl : List (String × HandlerTag),
      (∀ p ∈ tbl, (pyContains etype p.1 || pyContains emsg p.1) = true → res p.2 = false) →
      (dispatchHandlers etype emsg res tbl).2 = false := by
  intro tbl
  induction tbl with
  | nil => intro _; rfl
  | cons p rest ih =>
    intro h
    rcases p with ⟨key, tag⟩
    rw [dispatchHandlers]
    by_cases hfire : (pyContains etype key || pyContains emsg key) = true
    · rw [if_pos hfire]
      have hres : res tag = false := h (key, tag) (List.mem_cons_self _ _) hfire
      rw [hres]
      dsimp only
      exact ih (fun q hq => h q (List.mem_cons_of_mem _ hq))
    · rw [if_neg hfire]
      exact ih (fun q hq => h q (List.mem_cons_of_mem _ hq))

theorem dispatchHandlers_no_fire (etype emsg : String) (res : HandlerTag → Bool) :
    ∀ tbl : List (String × HandlerTag),
      (∀ p ∈ tbl, (pyContains etype p.1 || pyContains emsg p.1) = false) →
      dispatchHandlers etype emsg res tbl = ([], false) := by
  intro tbl
  induction tbl with
  | nil => intro _; rfl
  | cons p rest ih =>
    intro h
    rcases p with ⟨key, tag⟩
    rw [dispatchHandlers]
    have hfire := h (key, tag) (List.mem_cons_self _ _)
    rw [hfire]
    dsimp only
    exact ih (fun q hq => h q (List.mem_cons_of_mem _ hq))

theorem dispatchHandlers_tags (etype emsg : String) (res : HandlerTag → Bool) :
    ∀ tbl : List (String × HandlerTag), ∀ t ∈ (dispatchHandlers etype emsg res tbl).1,
      t ∈ tbl.map Prod.snd := by
  intro tbl
  induction tbl with
  | nil => intro t ht; simp [dispatchHandlers] at ht
  | cons p rest ih =>
    intro t ht
    rcases p with ⟨key, tag⟩
    rw [dispatchHandlers] at ht
    by_cases hfire : (pyContains etype key || pyContains emsg key) = true
    · rw [if_pos hfire] at ht
      by_cases hres : res tag = true
      · rw [if_pos hres] at ht
        rcases List.mem_singleton.mp ht with rfl
        exact List.mem_cons_self _ _
      · rw [if_neg hres] at ht
        dsimp only at ht
        rcases List.mem_cons.mp ht with rfl | ht
        · exact List.mem_cons_self _ _
        · exact List.mem_cons_of_mem _ (ih t ht)
    · rw [if_neg hfire] at ht
      exact List.mem_cons_of_mem _ (ih t ht)

/-! ## Claim theorems -/

/-- Claim C1: for every package name and every assignment of boolean
outcomes to the four installation strategies,
`install_package_with_fallback` tries the strategies in declaration order
(plain, fix-broken, allow-downgrades, force-yes), invokes each at most
once, returns `true` at the first succeeding strategy without invoking
any later one (the invocation count equals the position of the first
success), and returns `false` exactly when all four fail (count 4). -/
theorem claim_C1_fallback_chain (m1 m2 m3 m4 : String → Bool) (package_name : String) :
    ((install_package_with_fallback m1 m2 m3 m4 package_name).1 =
      (m1 package_name || m2 package_name || m3 package_name || m4 package_name))
    ∧ ((install_package_with_fallback m1 m2 m3 m4 package_name).2 =
      if m1 package_name then 1 else if m2 package_name then 2
      else if m3 package_name then 3 else 4)
    ∧ install_package_with_fallback (fun _ => false) (fun _ => false) (fun _ => true)
        (fun _ => false) package_name = (true, 3) := by
  cases h1 : m1 package_name <;> cases h2 : m2 package_name <;>
    cases h3 : m3 package_name <;> cases h4 : m4 package_name <;>
    simp [install_package_with_fallback, runChainFns, h1, h2, h3, h4]

/-- Claim C2: the online driver installation attempt is judged successful
exactly when the number of successfully installed candidate packages is at
least half their number (inclusive threshold), and
`_try_online_installation` indeed returns that judgment over its candidate
list; with 4 candidates, 2 successes pass and 1 success fails. -/
theorem claim_C2_online_threshold (pkgs : List String) (inst : String → Bool)
    (env : DrvEnv) (k : Nat) (hw : String) :
    (1 ≤ pkgs.length →
      (onlineJudge (pkgs.filter inst).length pkgs.length = true ↔
        2 * (pkgs.filter inst).length ≥ pkgs.length))
    ∧ ((∀ j, env.mod_load j ≠ ModOutcome.otherExc) →
      (try_online_installation env k hw).2.2 =
        some (onlineJudge ((get_driver_packages hw).filter env.pkg_install).length
          (get_driver_packages hw).length))
    ∧ onlineJudge 2 4 = true ∧ onlineJudge 1 4 = false := by
  refine ⟨fun _ => onlineJudge_iff _ _, fun h => ?_, ?_, ?_⟩
  · rw [try_online_installation_ok env h k hw]
  · norm_num [onlineJudge]
  · norm_num [onlineJudge]

/-- Witness for claim C2 at the concrete 4-candidate list with 2
successes, and the benign environment. -/
theorem claim_C2_online_threshold_witness :
    (onlineJudge 2 4 = true ↔ 2 * 2 ≥ 4)
    ∧ (try_online_installation envAllOk 0 "Unknown").2.2 =
      some (onlineJudge ((get_driver_packages "Unknown").filter envAllOk.pkg_install).length
        (get_driver_packages "Unknown").length) := by
  have h := claim_C2_online_threshold ["a", "b", "c", "d"] (fun s => s == "a" || s == "b")
    envAllOk 0 "Unknown"
  exact ⟨h.1 (by decide), h.2.1 (fun j => by simp [envAllOk])⟩

/-- Claim C3 (code bug): the offline-path hardware classification of
`_try_offline_installation` compares the mixed-case device markers
against the lowercased descriptor, so no marker can ever match: the
descriptor `"Atheros AR9285"` contains the atheros marker `"Atheros"`
under case-insensitive comparison, yet it is classified `"generic"`; in
fact every descriptor is classified `"generic"`. -/
theorem claim_C3_offline_classifier :
    identifyDriverType "Atheros AR9285" = "generic"
    ∧ pyContains (pyLower "Atheros AR9285") (pyLower "Atheros") = true
    ∧ ∀ d : String, identifyDriverType d = "generic" :=
  ⟨by decide, by decide, identify_always_generic⟩

/-- Claim C4 counterexample: in `SystemHealth.comprehensive_health_check`,
a report whose only failing probe is `sources_valid` still gets
`overall_health = true`, contradicting the claim that both health-check
implementations AND `sources_valid` into the overall verdict. -/
theorem claim_C4_counterexample :
    shPkgSourcesFalse.sources_valid = false
    ∧ (comprehensive_health_check shSysAllTrue shPkgSourcesFalse shNetAllTrue
        shHwEmpty shSecDefault).overall_health = true :=
  ⟨rfl, rfl⟩

/-- Claim C4 (amended): `PackageManager.check_system_health` derives
`overall_health` as the AND of exactly {apt working, sources valid,
repository reachable, disk adequate} (gpg-keys and broken-dependency
probes have no effect), while `SystemHealth.comprehensive_health_check`
derives it as the AND of exactly {apt working, disk adequate, internet
connectivity} (its `sources_valid` probe has no effect). -/
theorem claim_C4_overall_health (a s g n d dep : Bool) (sys : SHSystemReport)
    (pm : SHPackageReport) (net : SHNetworkReport) (hw : SHHardwareReport)
    (sec : SHSecurityReport) :
    ((check_system_health a s g n d dep).overall_health = true ↔
      (a = true ∧ s = true ∧ n = true ∧ d = true))
    ∧ ((comprehensive_health_check sys pm net hw sec).overall_health = true ↔
      (pm.apt_working = true ∧ sys.disk_space_adequate = true ∧
        net.internet_connectivity = true)) := by
  constructor
  · simp [check_system_health, Bool.and_eq_true, and_assoc]
  · simp [comprehensive_health_check, Bool.and_eq_true, and_assoc]

/-- Claim C5: with an empty hardware descriptor, `install_required_drivers`
goes straight to the generic installation step, never attempting the
online or offline steps, and (as long as module loading raises no
uncatchable exception) completes normally rather than failing. -/
theorem claim_C5_no_hardware_generic (env : DrvEnv) (k : Nat) :
    (DrvAction.onlineStep ∉ (installSteps env k "").2.1
      ∧ DrvAction.offlineStep ∉ (installSteps env k "").2.1
      ∧ DrvAction.genericStep ∈ (installSteps env k "").2.1)
    ∧ ((∀ j, env.mod_load j ≠ ModOutcome.otherExc) → (installSteps env k "").2.2 = some ()) :=
  ⟨installSteps_empty_no_online env k, fun h => installSteps_ok env h k ""⟩

/-- Witness for claim C5 in the environment where every install and
module load fails benignly. -/
theorem claim_C5_no_hardware_generic_witness :
    (DrvAction.onlineStep ∉ (installSteps envAllFail 0 "").2.1
      ∧ DrvAction.offlineStep ∉ (installSteps envAllFail 0 "").2.1
      ∧ DrvAction.genericStep ∈ (installSteps envAllFail 0 "").2.1)
    ∧ (installSteps envAllFail 0 "").2.2 = some () :=
  ⟨(claim_C5_no_hardware_generic envAllFail 0).1,
   (claim_C5_no_hardware_generic envAllFail 0).2 (fun j => by simp [envAllFail])⟩

/-- Claim C6: when no entry of the typed handler table fires, or every
firing entry's routine reports failure, `handle_error` falls back to
message-content analysis, which runs exactly one of the five general
repair routines chosen by scanning the lowercased message against the
keyword sets in the fixed priority order {broken, dependency, dpkg} then
{network, connection, unreachable} then {driver, firmware, module} then
{memory, space, disk}, defaulting to the general system repair. -/
theorem claim_C6_keyword_fallback (etype emsg : String) (res : HandlerTag → Bool)
    (h : ∀ p ∈ error_handlers,
      (pyContains etype p.1 || pyContains emsg p.1) = true → res p.2 = false) :
    (handle_error etype emsg res).2 = some (analyze_and_fix_general emsg)
    ∧ (analyze_and_fix_general emsg = GeneralFix.packageSystem ↔
        keywordHit emsg ["broken", "dependency", "dpkg"] = true)
    ∧ (analyze_and_fix_general emsg = GeneralFix.networkSystem ↔
        (keywordHit emsg ["broken", "dependency", "dpkg"] = false ∧
         keywordHit emsg ["network", "connection", "unreachable"] = true))
    ∧ (analyze_and_fix_general emsg = GeneralFix.driverSystem ↔
        (keywordHit emsg ["broken", "dependency", "dpkg"] = false ∧
         keywordHit emsg ["network", "connection", "unreachable"] = false ∧
         keywordHit emsg ["driver", "firmware", "module"] = true))
    ∧ (analyze_and_fix_general emsg = GeneralFix.resourceIssues ↔
        (keywordHit emsg ["broken", "dependency", "dpkg"] = false ∧
         keywordHit emsg ["network", "connection", "unreachable"] = false ∧
         keywordHit emsg ["driver", "firmware", "module"] = false ∧
         keywordHit emsg ["memory", "space", "disk"] = true))
    ∧ (analyze_and_fix_general emsg = GeneralFix.generalRepair ↔
        (keywordHit emsg ["broken", "dependency", "dpkg"] = false ∧
         keywordHit emsg ["network", "connection", "unreachable"] = false ∧
         keywordHit emsg ["driver", "firmware", "module"] = false ∧
         keywordHit emsg ["memory", "space", "disk"] = false)) := by
  have hds : (dispatchHandlers etype emsg res error_handlers).2 = false :=
    dispatchHandlers_no_success etype emsg res error_handlers h
  refine ⟨by simp [handle_error, hds], ?_⟩
  rcases hk1 : keywordHit emsg ["broken", "dependency", "dpkg"] <;>
    rcases hk2 : keywordHit emsg ["network", "connection", "unreachable"] <;>
    rcases hk3 : keywordHit emsg ["driver", "firmware", "module"] <;>
    rcases hk4 : keywordHit emsg ["memory", "space", "disk"] <;>
    simp [analyze_and_fix_general, hk1, hk2, hk3, hk4]

/-- Witness for claim C6 at a concrete unrecognized failure whose message
contains the keyword `broken`, with all handler routines failing. -/
theorem claim_C6_keyword_fallback_witness :
    (handle_error "ValueError" "somewhat broken" (fun _ => false)).2 =
      some (analyze_and_fix_general "somewhat broken")
    ∧ analyze_and_fix_general "somewhat broken" = GeneralFix.packageSystem := by
  have h := claim_C6_keyword_fallback "ValueError" "somewhat broken" (fun _ => false)
    (by decide)
  exact ⟨h.1, (h.2.1).mpr (by decide)⟩

/-- Claim C7 counterexample: a failure of kind `RuntimeError` whose
message contains `"Permission denied"` matches no entry of the handler
table (the table key is the literal `"PermissionError"`), so no typed
routine runs and the triage falls through to the general system repair,
not the permission repair. -/
theorem claim_C7_counterexample :
    handle_error "RuntimeError" "Permission denied" (fun _ => true) =
      ([], some GeneralFix.generalRepair) := by decide

/-- Claim C7 (amended): the permission repair is dispatched (exactly once)
for the failures whose kind or message contains the literal text
`"PermissionError"`, not for messages merely containing
`"Permission denied"`; and a failure matching no table entry and no
keyword set falls through to the general system repair. -/
theorem claim_C7_permission_dispatch (etype emsg : String) (res : HandlerTag → Bool) :
    ((pyContains etype "PermissionError" || pyContains emsg "PermissionError") = true →
      (handle_error etype emsg res).1.count HandlerTag.permissionIssues = 1)
    ∧ ((∀ p ∈ error_handlers, (pyContains etype p.1 || pyContains emsg p.1) = false) →
      keywordHit emsg ["broken", "dependency", "dpkg"] = false →
      keywordHit emsg ["network", "connection", "unreachable"] = false →
      keywordHit emsg ["driver", "firmware", "module"] = false →
      keywordHit emsg ["memory", "space", "disk"] = false →
      handle_error etype emsg res = ([], some GeneralFix.generalRepair)) := by
  refine ⟨fun hfire => ?_, fun hnone hk1 hk2 hk3 hk4 => ?_⟩
  · have hone : (handle_error etype emsg res).1 =
        (dispatchHandlers etype emsg res error_handlers).1 := by
      unfold handle_error
      dsimp only
      rcases (dispatchHandlers etype emsg res error_handlers).2 with _ | _ <;> rfl
    rw [hone]
    rw [show error_handlers = ("PermissionError", HandlerTag.permissionIssues) ::
      error_handlers.tail from rfl]
    rw [dispatchHandlers]
    rw [if_pos hfire]
    by_cases hres : res HandlerTag.permissionIssues = true
    · rw [if_pos hres]
      rfl
    · rw [if_neg hres]
      dsimp only
      have hnot : HandlerTag.permissionIssues ∉
          (dispatchHandlers etype emsg res error_handlers.tail).1 := by
        intro hmem
        have := dispatchHandlers_tags etype emsg res error_handlers.tail _ hmem
        revert this
        decide
      rw [List.count_cons_self, List.count_eq_zero.mpr hnot]
  · have hdf := dispatchHandlers_no_fire etype emsg res error_handlers hnone
    unfold handle_error
    dsimp only
    rw [hdf]
    dsimp only
    rw [show analyze_and_fix_general emsg = GeneralFix.generalRepair from by
      simp [analyze_and_fix_general, hk1, hk2, hk3, hk4]]
    rfl

/-- Witness for claim C7: a failure whose kind contains `PermissionError`
dispatches the permission repair once; a fully unrecognized failure goes
to the general system repair. -/
theorem claim_C7_permission_dispatch_witness :
    (handle_error "PermissionError" "boom" (fun _ => true)).1.count
      HandlerTag.permissionIssues = 1
    ∧ handle_error "ZeroDivisionError" "weird" (fun _ => true) =
      ([], some GeneralFix.generalRepair) :=
  ⟨(claim_C7_permission_dispatch "PermissionError" "boom" (fun _ => true)).1 (by decide),
   (claim_C7_permission_dispatch "ZeroDivisionError" "weird" (fun _ => true)).2
     (by decide) (by decide) (by decide) (by decide) (by decide)⟩

/-- Claim C8: on a health report where only `sources_valid` is false,
`repair_system_health` runs exactly the sources-rewrite repair and no
other repair action, and `_fix_sources_list` renames the existing sources
file to a timestamped backup before writing the known-good contents. -/
theorem claim_C8_sources_only_repair (hs : HealthStatus) (t : Nat)
    (h1 : hs.apt_working = true) (h2 : hs.gpg_keys_valid = true)
    (h3 : hs.disk_space_adequate = true) (_h4 : hs.network_connected = true)
    (_h5 : hs.dependencies_ok = true) (h6 : hs.sources_valid = false) :
    repair_system_health hs = [PkgRepair.fixSourcesList]
    ∧ fix_sources_list true t =
        [FileAction.renameFile "/etc/apt/sources.list"
          ("/etc/apt/sources.list.backup." ++ toString t),
         FileAction.writeFile "/etc/apt/sources.list" kaliSources] := by
  constructor
  · simp [repair_system_health, h1, h2, h3, h6]
  · rfl

/-- Witness for claim C8 at the report built by `check_system_health`
with only the sources probe failing. -/
theorem claim_C8_sources_only_repair_witness :
    repair_system_health (check_system_health true false true true true true) =
      [PkgRepair.fixSourcesList]
    ∧ fix_sources_list true 1700000000 =
        [FileAction.renameFile "/etc/apt/sources.list"
          ("/etc/apt/sources.list.backup." ++ toString 1700000000),
         FileAction.writeFile "/etc/apt/sources.list" kaliSources] :=
  claim_C8_sources_only_repair (check_system_health true false true true true true)
    1700000000 rfl rfl rfl rfl rfl rfl

/-- Claim C9 counterexample: in an environment where every `modprobe`
invocation raises an exception `_load_kernel_module` does not catch, the
failure escaping the install steps triggers the emergency installation,
whose own module load raises again — and that exception escapes
`install_required_drivers` to the caller, so the routine does not "never
raise". -/
theorem claim_C9_counterexample :
    (install_required_drivers envAllOtherExc).2.2 = none
    ∧ DrvAction.emergencyStep ∈ (install_required_drivers envAllOtherExc).2.1 := by decide

/-- Claim C9 (amended): provided module loading only fails with the
`CalledProcessError` the loader catches, `install_required_drivers` never
raises, whatever the remaining environment outcomes; and under the same
proviso the emergency routine attempts every one of the 13 known modules
across all families, unblocks RF-kill, restarts NetworkManager, and
reports completion rather than failure. -/
theorem claim_C9_never_raises (env : DrvEnv)
    (h : ∀ j, env.mod_load j ≠ ModOutcome.otherExc) :
    (install_required_drivers env).2.2 = some ()
    ∧ ∀ k, emergency_driver_installation env k =
        (k + all_modules.length,
         all_modules.map DrvAction.modprobeAttempt ++
           [DrvAction.rfkillUnblockAll, DrvAction.restartNetworkManager],
         some ()) :=
  ⟨install_required_drivers_ok env h, fun k => emergency_driver_installation_ok env h k⟩

/-- Witness for claim C9 in the environment where every module load and
package install fails benignly. -/
theorem claim_C9_never_raises_witness :
    (install_required_drivers envAllFail).2.2 = some ()
    ∧ emergency_driver_installation envAllFail 0 =
        (0 + all_modules.length,
         all_modules.map DrvAction.modprobeAttempt ++
           [DrvAction.rfkillUnblockAll, DrvAction.restartNetworkManager],
         some ()) :=
  ⟨(claim_C9_never_raises envAllFail (fun j => by simp [envAllFail])).1,
   (claim_C9_never_raises envAllFail (fun j => by simp [envAllFail])).2 0⟩

/-- Claim C10: `_detect_wifi_hardware` never returns the empty string —
it returns `"Unknown"` when an exception occurred or when no
wireless-indicative line matched — and consequently the no-hardware
branch of `install_required_drivers` (guarded by string falsiness) is
unreachable: the composed routine always enters the online step first. -/
theorem claim_C10_detect_nonempty (pci usb : String) (raised : Bool) (env : DrvEnv) :
    detect_wifi_hardware pci usb raised ≠ ""
    ∧ (raised = true → detect_wifi_hardware pci usb raised = "Unknown")
    ∧ (raised = false →
        ((pySplitLines pci).filter pciWifiPred).map pyStrip ++
          ((pySplitLines usb).filter usbWifiPred).map pyStrip = [] →
        detect_wifi_hardware pci usb raised = "Unknown")
    ∧ (∃ rest, (install_required_drivers env).2.1 = DrvAction.onlineStep :: rest) := by
  refine ⟨detect_wifi_hardware_ne_empty pci usb raised, ?_, ?_,
    install_required_drivers_head_online env⟩
  · rintro rfl
    rfl
  · rintro rfl hnil
    unfold detect_wifi_hardware
    dsimp only
    rw [hnil]
    rfl

/-- Witness for claim C10 at empty enumeration outputs in both the raised
and non-raised cases, with the benign environment. -/
theorem claim_C10_detect_nonempty_witness :
    detect_wifi_hardware "" "" false ≠ ""
    ∧ detect_wifi_hardware "" "" true = "Unknown"
    ∧ detect_wifi_hardware "" "" false = "Unknown"
    ∧ (∃ rest, (install_required_drivers envAllOk).2.1 = DrvAction.onlineStep :: rest) :=
  ⟨(claim_C10_detect_nonempty "" "" false envAllOk).1,
   (claim_C10_detect_nonempty "" "" true envAllOk).2.1 rfl,
   (claim_C10_detect_nonempty "" "" false envAllOk).2.2.1 rfl (by decide),
   (claim_C10_detect_nonempty "" "" false envAllOk).2.2.2⟩
